import Mathlib

/-!
Verification of the pseudo_verilog simulation kernel (header-only C++).

Shallow embedding of the state-bearing parts of the library:

* `PV.WireState` / `PV.common_assignment` / `PV.neg_edge_update` embed the
  wire machinery of `src/include/pv_wires.h` (class `WireTemplateBase<T>`).
  The root's changed-wires set and the trigger call are per-wire effects, so
  an assignment is modelled as the new wire state plus two booleans: whether
  `add_changed_wire` (rather than `remove_changed_wire`) was called for this
  wire, and whether `trigger_module(sensitized_module)` was called.
* `PV.Register` with `pos_edge`, `restore_replica`, `nb_assign`, `reset`
  embeds `src/include/pv_register.h` (class `Register<T>`).
* `PV.MTree` models the module tree (ordered collections of registers and
  child modules) used by `Testbench::pos_edge` and
  `Testbench::reset_module_to_init_state` in `src/include/pv_testbench.h`.
  The definitive `Module` class itself is not among the staged sources
  (`pv_module.h` holds an older global-database variant that the rest of the
  code no longer compiles against), so the container shape is taken from the
  spec's data model and from the `m_begin/r_begin/w_begin` iteration in the
  staged `pv_testbench.h` / `pv_vcd.h`.
* `PV.LoopState` / `PV.processModule` embed the body of the fixed-point loop
  of `Testbench::simulation` (restore-replica on re-evaluation, the
  eval-was-called flag, and a user `evaluate()` that performs non-blocking
  writes to register sources).
* `PV.FPSys` / `PV.fpRun` embed the watchdog-guarded while loop of
  `Testbench::simulation` for a concrete two-wire combinational feedback
  design, and `PV.SimState` / `PV.simulationLoop` embed the try/catch and
  exit-code plumbing of the outer do-while clock loop.
* `PV.VcdWriter` embeds the `vcd::writer` emission primitives of
  `src/include/pv_vcd.h` with the output stream as a list of emitted lines
  and `check_state`'s throw as `Except.error`.
-/

namespace PV

/-- Wire state of `WireTemplateBase<T>` (pv_wires.h): current/start-of-clock/
instance-time X flags and values. -/
structure WireState (T : Type) where
  is_x : Bool
  was_x : Bool
  init_x : Bool
  value : T
  old_value : T
  init_value : T
deriving DecidableEq, Repr

/-- Result of one `WireTemplateBase<T>::common_assignment` call: the new wire
state, whether the wire ended in the root's changed-wires set
(`add_changed_wire` was called; `false` means `remove_changed_wire` was
called), and whether `trigger_module(sensitized_module)` was called. -/
structure AssignOut (T : Type) where
  wire : WireState T
  inChangedWires : Bool
  triggered : Bool
deriving DecidableEq, Repr

/-- `WireTemplateBase<T>::common_assignment(to_x, v)` (pv_wires.h lines
346-390). `hasSens` models `sensitized_module != NULL`. In the `to_x` branch
the incoming value is ignored: membership in changed-wires is decided by
`was_x`, the trigger by `!is_x`, and only `is_x` is written. Otherwise
membership is `was_x || v != old_value`, the trigger is
`(is_x || v != value) && sensitized`, and then `is_x = false; value = v`. -/
def common_assignment [DecidableEq T] (hasSens : Bool) (w : WireState T)
    (to_x : Bool) (v : T) : AssignOut T :=
  if to_x then
    { wire := { w with is_x := true }
      inChangedWires := !w.was_x
      triggered := !w.is_x && hasSens }
  else
    { wire := { w with is_x := false, value := v }
      inChangedWires := w.was_x || !(decide (v = (w.old_value)))
      triggered := (w.is_x || !(decide (v = (w.value)))) && hasSens }

/-- `WireTemplateBase<T>::neg_edge_update` (pv_wires.h lines 341-344):
`was_x = is_x; old_value = value`. -/
def neg_edge_update (w : WireState T) : WireState T :=
  { w with was_x := w.is_x, old_value := w.value }

/-- `WireTemplateBase<T>::reset_to_instance_state` (pv_wires.h lines
313-316): `was_x = is_x = init_x; old_value = value = init_value`. -/
def wire_reset_to_instance_state (w : WireState T) : WireState T :=
  { w with was_x := w.init_x, is_x := w.init_x
           old_value := w.init_value, value := w.init_value }

/-- `WireTemplateBase<T>::constructor_common` (pv_wires.h lines 395-405):
with an initializer all X flags are false and all three values are the
initializer; without one the three X flags are true and the value fields are
uninitialized memory, modelled by the `garbage` parameter. -/
def wire_constructor (initOpt : Option T) (garbage : T) : WireState T :=
  match initOpt with
  | some i => { is_x := false, was_x := false, init_x := false
                value := i, old_value := i, init_value := i }
  | none => { is_x := true, was_x := true, init_x := true
              value := garbage, old_value := garbage, init_value := garbage }

/-- `WireTemplateBase<T>::operator T()` (pv_wires.h line 199): reading a wire
returns `value`, with no look at the X flag. -/
def wire_read (w : WireState T) : T := w.value

/-- Register state of `Register<T>` (pv_register.h): source (D), replica (Q),
the instance-time value, and the matching X flags. -/
structure Register (T : Type) where
  source : T
  replica : T
  init_state : T
  source_x : Bool
  replica_x : Bool
  init_x : Bool
deriving DecidableEq, Repr

/-- Result of one `Register<T>::pos_edge` call (pv_register.h lines 313-339):
the new register state, and whether `trigger_module(parent_module)` and
`add_changed_register(this)` were called (both happen exactly when the
change test fires; the optional trace-record block touches no register
state). -/
structure PosEdgeOut (T : Type) where
  reg : Register T
  did_trigger_parent : Bool
  added_changed_register : Bool
deriving DecidableEq, Repr

/-- `Register<T>::pos_edge`: the change test is
`replica_x ? !source_x : (source_x || replica != source)`; when it fires the
parent module is triggered and the register is added to the root's
changed-registers set; unconditionally `replica = source` and
`replica_x = source_x` afterwards. -/
def Register.pos_edge [DecidableEq T] (r : Register T) : PosEdgeOut T :=
  let change : Bool :=
    if r.replica_x then !r.source_x
    else r.source_x || !(decide (r.replica = (r.source)))
  { reg := { r with replica := r.source, replica_x := r.source_x }
    did_trigger_parent := change
    added_changed_register := change }

/-- `Register<T>::restore_replica` (pv_register.h lines 307-310):
`source = replica; source_x = replica_x`. -/
def Register.restore_replica (r : Register T) : Register T :=
  { r with source := r.replica, source_x := r.replica_x }

/-- `Register<T>::operator<=(const U&)` (pv_register.h lines 227-232), the
non-blocking write of a plain (non-register) value:
`source_x = false; source = v`. -/
def Register.nb_assign (r : Register T) (v : T) : Register T :=
  { r with source := v, source_x := false }

/-- `Register<T>::reset` (pv_register.h lines 301-304):
`source = replica = init_state; source_x = replica_x = init_x`. This private
method is what the register's documentation describes as the
reset-to-instance-state behavior, but nothing in the repository calls it. -/
def Register.reset (r : Register T) : Register T :=
  { r with source := r.init_state, replica := r.init_state
           source_x := r.init_x, replica_x := r.init_x }

/-- `RegisterBase::reset_to_instance_state` (pv_register.h lines 128-129):
`virtual void reset_to_instance_state() {}` — an empty body. `Register<T>`
declares no override of this name (its resetting body is the differently
named, uncalled `reset()`), so the virtual dispatch performed by
`Testbench::reset_module_to_init_state` runs this empty body: the register
is left unchanged. -/
def RegisterBase.reset_to_instance_state (r : Register T) : Register T := r

/-- `Register<T>::constructor_common` (pv_register.h lines 359-376): with an
initializer, `init_state = replica = source = *init` and all X flags false;
without one all three X flags are true and the value fields are
uninitialized memory, modelled by the `garbage` parameter. -/
def register_constructor (initOpt : Option T) (garbage : T) : Register T :=
  match initOpt with
  | some i => { source := i, replica := i, init_state := i
                source_x := false, replica_x := false, init_x := false }
  | none => { source := garbage, replica := garbage, init_state := garbage
              source_x := true, replica_x := true, init_x := true }

end PV

namespace PV

/- Module tree as `Testbench::pos_edge` and
`Testbench::reset_module_to_init_state` walk it: a module owns a list of
registers and a forest of child modules. Modelled from the spec: the
definitive `Module` class (with its `r_begin/m_begin` collections) is not
among the staged sources; the shape follows spec section 3 and the iteration
in the staged `pv_testbench.h`. Wires are omitted here because the claims
over the tree concern registers only. -/
mutual

/-- A module: its register collection and its child-module collection. -/
inductive MTree (T : Type) where
  | node : List (Register T) → MForest T → MTree T

/-- Forest of sibling module subtrees (the parent's child-module
collection). -/
inductive MForest (T : Type) where
  | nil : MForest T
  | cons : MTree T → MForest T → MForest T

end

mutual

/-- `Testbench::pos_edge(const Module*)` (pv_testbench.h lines 458-466):
clock all local registers, then descend into child modules. -/
def MTree.pos_edge [DecidableEq T] : MTree T → MTree T
  | .node rs cs => .node (rs.map (fun r => (Register.pos_edge r).reg)) cs.pos_edge

/-- `Testbench::pos_edge` over the child-module collection. -/
def MForest.pos_edge [DecidableEq T] : MForest T → MForest T
  | .nil => .nil
  | .cons t f => .cons t.pos_edge f.pos_edge

end

mutual

/-- All registers of a module subtree, in traversal order. -/
def MTree.allRegs : MTree T → List (Register T)
  | .node rs cs => rs ++ cs.allRegs

/-- All registers of a forest of module subtrees. -/
def MForest.allRegs : MForest T → List (Register T)
  | .nil => []
  | .cons t f => t.allRegs ++ f.allRegs

end

theorem pos_edge_commits_reg (r : Register T) [DecidableEq T] :
    (Register.pos_edge r).reg.replica = (Register.pos_edge r).reg.source ∧
    (Register.pos_edge r).reg.replica_x = (Register.pos_edge r).reg.source_x := by
  unfold Register.pos_edge
  exact ⟨rfl, rfl⟩

mutual

theorem MTree.pos_edge_commits_tree [DecidableEq T] :
    (t : MTree T) → ∀ r ∈ t.pos_edge.allRegs,
      r.replica = r.source ∧ r.replica_x = r.source_x
  | .node rs cs => by
    intro r hr
    rw [MTree.pos_edge, MTree.allRegs] at hr
    rcases List.mem_append.1 hr with h | h
    · rcases List.mem_map.1 h with ⟨r0, _, rfl⟩
      exact pos_edge_commits_reg r0
    · exact MForest.pos_edge_commits_forest cs r h

theorem MForest.pos_edge_commits_forest [DecidableEq T] :
    (f : MForest T) → ∀ r ∈ f.pos_edge.allRegs,
      r.replica = r.source ∧ r.replica_x = r.source_x
  | .nil => by
    intro r hr
    rw [MForest.pos_edge, MForest.allRegs] at hr
    exact absurd hr (List.not_mem_nil r)
  | .cons t f => by
    intro r hr
    rw [MForest.pos_edge, MForest.allRegs] at hr
    rcases List.mem_append.1 hr with h | h
    · exact MTree.pos_edge_commits_tree t r h
    · exact MForest.pos_edge_commits_forest f r h

end

end PV

/-- Claim C2: the positive-edge operation computes
change = (Xq ≠ Xd) ∨ (¬Xd ∧ Q ≠ D); exactly when change holds it triggers
the owning module and adds the register to the root's changed-registers
set; it unconditionally then sets Q ← D and Xq ← Xd; and at the end of the
positive-edge tree walk every register satisfies Q = D and Xq = Xd. -/
theorem PV.register_pos_edge_spec {T : Type} [DecidableEq T]
    (r : PV.Register T) (t : PV.MTree T) :
    ((PV.Register.pos_edge r).did_trigger_parent = true ↔
      (r.replica_x ≠ r.source_x ∨ (r.source_x = false ∧ r.replica ≠ r.source))) ∧
    (PV.Register.pos_edge r).added_changed_register =
      (PV.Register.pos_edge r).did_trigger_parent ∧
    (PV.Register.pos_edge r).reg.replica = r.source ∧
    (PV.Register.pos_edge r).reg.replica_x = r.source_x ∧
    (∀ r' ∈ t.pos_edge.allRegs, r'.replica = r'.source ∧ r'.replica_x = r'.source_x) := by
  refine ⟨?_, rfl, rfl, rfl, PV.MTree.pos_edge_commits_tree t⟩
  unfold PV.Register.pos_edge
  cases hqx : r.replica_x <;> cases hdx : r.source_x <;>
    by_cases hv : r.replica = r.source <;> simp_all

/-- Claim C9: a non-blocking write of a plain (non-register) value v sets
the source D to v and clears the D X-flag, for every register and every
prior state; consequently the first positive edge after the write leaves the
X state: the replica becomes v with its X flag false. -/
theorem PV.register_nb_write_clears_x {T : Type} [DecidableEq T]
    (r : PV.Register T) (v : T) :
    (r.nb_assign v).source = v ∧
    (r.nb_assign v).source_x = false ∧
    ((r.nb_assign v).pos_edge).reg.replica = v ∧
    ((r.nb_assign v).pos_edge).reg.replica_x = false := by
  unfold PV.Register.nb_assign PV.Register.pos_edge
  exact ⟨rfl, rfl, rfl, rfl⟩

namespace PV

/-- Concrete register for the C7 failing input: `Register<int> r(&m, "r", 0)`
followed by `r <= 5` and one positive edge, so Q = D = 5 while the
instance-time value is 0. -/
def c7_reg : Register Int :=
  (Register.pos_edge ((register_constructor (some 0) 0).nb_assign 5)).reg

end PV

/-- Claim C7 (code bug): after `r <= 5` and a positive edge, the register
holds Q = D = 5 with instance value 0; the reset-to-instance-state call that
`Testbench::reset_module_to_init_state` dispatches is the empty
`RegisterBase::reset_to_instance_state` body, which leaves Q = D = 5 instead
of restoring the instance state, while the uncalled `Register<T>::reset`
would restore D = Q = 0 as the claim requires. -/
theorem PV.register_reset_dispatch_noop :
    PV.c7_reg.replica = 5 ∧ PV.c7_reg.source = 5 ∧ PV.c7_reg.init_state = 0 ∧
    PV.RegisterBase.reset_to_instance_state PV.c7_reg = PV.c7_reg ∧
    (PV.Register.reset PV.c7_reg).replica = 0 ∧
    (PV.Register.reset PV.c7_reg).source = 0 := by
  exact ⟨rfl, rfl, rfl, rfl, rfl, rfl⟩

namespace PV

/-- A wire together with its membership in the root's changed-wires set. -/
structure TrackedWire (T : Type) where
  wire : WireState T
  inChanged : Bool
deriving DecidableEq, Repr

/-- The operations of the simulation loop that touch a given wire: an
assignment (`common_assignment`, reached from every wire-writing operator)
and the negative-edge commit of `Testbench::simulation` (pv_testbench.h
lines 222-225), which calls `neg_edge_update` on the wires of the
changed-wires set and then clears the set. -/
inductive WireOp (T : Type) where
  | assign (to_x : Bool) (v : T)
  | negEdgeCommit
deriving DecidableEq, Repr

/-- One simulation-loop operation on a tracked wire. The negative-edge
commit updates only wires that are members of the changed-wires set, and
clearing the set makes every wire a non-member. -/
def wireStep [DecidableEq T] (hasSens : Bool) (s : TrackedWire T) :
    WireOp T → TrackedWire T
  | .assign tx v =>
    let o := common_assignment hasSens s.wire tx v
    { wire := o.wire, inChanged := o.inChangedWires }
  | .negEdgeCommit =>
    { wire := if s.inChanged then neg_edge_update s.wire else s.wire
      inChanged := false }

/-- The changed-wires membership invariant of the spec:
w ∈ changed-wires iff (X₀ ≠ X) ∨ (¬X ∧ V ≠ V₀). -/
def changedInv (s : TrackedWire T) : Prop :=
  s.inChanged = true ↔
    (s.wire.was_x ≠ s.wire.is_x ∨
      (s.wire.is_x = false ∧ s.wire.value ≠ s.wire.old_value))

/-- A freshly constructed wire is not in the changed-wires set. -/
def tracked_constructor (initOpt : Option T) (garbage : T) : TrackedWire T :=
  { wire := wire_constructor initOpt garbage, inChanged := false }

theorem changedInv_constructor (initOpt : Option T) (garbage : T) :
    changedInv (tracked_constructor initOpt garbage) := by
  cases initOpt <;> simp [changedInv, tracked_constructor, wire_constructor]

theorem changedInv_step [DecidableEq T] (hasSens : Bool) (s : TrackedWire T)
    (op : WireOp T) (h : changedInv s) : changedInv (wireStep hasSens s op) := by
  cases op with
  | assign tx v =>
    cases tx with
    | false =>
      simp only [changedInv, wireStep, common_assignment, if_neg Bool.false_ne_true]
      cases hwx : s.wire.was_x <;> by_cases hov : v = s.wire.old_value <;> simp_all
    | true =>
      simp only [changedInv, wireStep, common_assignment, if_pos rfl]
      cases hwx : s.wire.was_x <;> simp_all
  | negEdgeCommit =>
    cases hc : s.inChanged with
    | true => simp [changedInv, wireStep, hc, neg_edge_update]
    | false =>
      simp only [changedInv, wireStep, hc, if_neg Bool.false_ne_true]
      simp only [changedInv, hc] at h
      simp only [Bool.false_eq_true, false_iff] at h ⊢
      exact h

theorem changedInv_foldl [DecidableEq T] (hasSens : Bool)
    (ops : List (WireOp T)) :
    ∀ s : TrackedWire T, changedInv s →
      changedInv (ops.foldl (wireStep hasSens) s) := by
  induction ops with
  | nil => exact fun s h => h
  | cons op rest ih =>
    intro s h
    rw [List.foldl_cons]
    exact ih _ (changedInv_step hasSens s op h)

end PV

/-- Claim C4: along any sequence of simulation-loop operations on a wire
(assignments of values or X, and negative-edge commits that update the
changed wires and clear the set), starting from either constructor state,
the wire is a member of the root's changed-wires set iff
(X₀ ≠ X) ∨ (¬X ∧ V ≠ V₀); in particular the negative-edge commit
re-establishes the invariant for the next clock. -/
theorem PV.changed_wires_invariant_reachable {T : Type} [DecidableEq T]
    (hasSens : Bool) (initOpt : Option T) (garbage : T)
    (ops : List (PV.WireOp T)) :
    PV.changedInv (ops.foldl (PV.wireStep hasSens)
      (PV.tracked_constructor initOpt garbage)) :=
  PV.changedInv_foldl hasSens ops _ (PV.changedInv_constructor initOpt garbage)

namespace PV

/-- State threaded through one clock's fixed-point loop
(`Testbench::simulation`, pv_testbench.h lines 196-206): the register file
(indexed by register identity `R`) and the per-module
eval-has-been-called flags (indexed by module identity `M`). -/
structure LoopState (T M R : Type) where
  regs : R → Register T
  evalCalled : M → Bool

/-- A user `evaluate()` body, abstracted by its effect on register sources:
given the module being evaluated and the register file it reads, it yields
for every register the new (Xd, D) pair. Per the register contract
(pv_register.h: `operator<=` and `assign_x` write only `source`/`source_x`;
writes are non-blocking), an evaluation never writes replica fields. -/
def EvalFn (T M R : Type) : Type := M → (R → Register T) → R → (Bool × T)

/-- `Testbench::restore_register_replica_state(m)` (pv_testbench.h lines
437-440): `restore_replica` on every register owned by module m. -/
def restore_module [DecidableEq M] (owner : R → M) (m : M)
    (regs : R → Register T) : R → Register T :=
  fun r => if owner r = m then (regs r).restore_replica else regs r

/-- The per-module body of the fixed-point loop (pv_testbench.h lines
200-206): if the module's eval-was-called flag is set, restore its
registers' replicas; set the flag; run `evaluate()`, whose non-blocking
writes update register sources. -/
def processModule [DecidableEq M] (f : EvalFn T M R) (owner : R → M)
    (s : LoopState T M R) (m : M) : LoopState T M R :=
  let regs1 := if s.evalCalled m then restore_module owner m s.regs else s.regs
  { regs := fun r =>
      { regs1 r with source_x := (f m regs1 r).1, source := (f m regs1 r).2 }
    evalCalled := fun m' => if m' = m then true else s.evalCalled m' }

theorem processModule_replica [DecidableEq M] (f : EvalFn T M R)
    (owner : R → M) (s : LoopState T M R) (m : M) (r : R) :
    ((processModule f owner s m).regs r).replica = (s.regs r).replica ∧
    ((processModule f owner s m).regs r).replica_x = (s.regs r).replica_x := by
  unfold processModule restore_module Register.restore_replica
  by_cases h1 : s.evalCalled m <;> by_cases h2 : owner r = m <;> simp [h1, h2]

theorem foldl_processModule_replica [DecidableEq M] (f : EvalFn T M R)
    (owner : R → M) (ms : List M) :
    ∀ (s : LoopState T M R) (r : R),
      ((ms.foldl (processModule f owner) s).regs r).replica = (s.regs r).replica ∧
      ((ms.foldl (processModule f owner) s).regs r).replica_x = (s.regs r).replica_x := by
  induction ms with
  | nil => exact fun s r => ⟨rfl, rfl⟩
  | cons m rest ih =>
    intro s r
    rw [List.foldl_cons]
    refine ⟨?_, ?_⟩
    · rw [(ih (processModule f owner s m) r).1,
        (processModule_replica f owner s m r).1]
    · rw [(ih (processModule f owner s m) r).2,
        (processModule_replica f owner s m r).2]

end PV

/-- Claim C3: during the fixed-point loop of a clock, when a module whose
eval-was-called flag is already set is about to be evaluated again, the code
first restores its registers' replicas, so immediately before that
re-evaluation every register of that module satisfies D = Q and Xd = Xq,
where Q is still the value it held at the start of the clock (right after
the positive edge, state s₀): the speculative D of the earlier evaluation
is forgotten. -/
theorem PV.fixed_point_reeval_restores_replica {T M R : Type} [DecidableEq M]
    (f : PV.EvalFn T M R) (owner : R → M) (s₀ : PV.LoopState T M R)
    (ms : List M) (m : M)
    (h : (ms.foldl (PV.processModule f owner) s₀).evalCalled m = true) :
    ∀ r : R, owner r = m →
      (PV.restore_module owner m
        (ms.foldl (PV.processModule f owner) s₀).regs r).source =
        (PV.restore_module owner m
          (ms.foldl (PV.processModule f owner) s₀).regs r).replica ∧
      (PV.restore_module owner m
        (ms.foldl (PV.processModule f owner) s₀).regs r).source_x =
        (PV.restore_module owner m
          (ms.foldl (PV.processModule f owner) s₀).regs r).replica_x ∧
      (PV.restore_module owner m
        (ms.foldl (PV.processModule f owner) s₀).regs r).replica =
        (s₀.regs r).replica ∧
      (PV.restore_module owner m
        (ms.foldl (PV.processModule f owner) s₀).regs r).replica_x =
        (s₀.regs r).replica_x := by
  intro r hr
  have hrep := PV.foldl_processModule_replica f owner ms s₀ r
  unfold PV.restore_module PV.Register.restore_replica
  rw [if_pos hr]
  exact ⟨rfl, rfl, hrep.1, hrep.2⟩

namespace PV

/-- Concrete instance for the C3 witness: two modules (`M = Bool`), one
register per module (`R = Bool`), owned by the like-named module; the
evaluation of module b writes source 7 with Xd cleared to its own
register; the loop processed module `true` twice. -/
def c3_eval : EvalFn Int Bool Bool :=
  fun m regs r => if r = m then (false, 7) else ((regs r).source_x, (regs r).source)

/-- Start-of-clock state for the C3 witness: both registers hold
D = Q = 3 with clear X flags (as after a positive edge), no module
evaluated yet. -/
def c3_start : LoopState Int Bool Bool :=
  { regs := fun _ =>
      { source := 3, replica := 3, init_state := 3
        source_x := false, replica_x := false, init_x := false }
    evalCalled := fun _ => false }

end PV

/-- Witness for claim C3 at a concrete input: after the loop processes
module `true` twice from `c3_start`, its flag is set, and the restored
register of that module has D = Q = 3, the start-of-clock replica. -/
theorem PV.fixed_point_reeval_restores_replica_witness :
    (([true, true] : List Bool).foldl
      (PV.processModule PV.c3_eval (fun r => r)) PV.c3_start).evalCalled true = true ∧
    ((PV.restore_module (fun r => r) true
      (([true, true] : List Bool).foldl
        (PV.processModule PV.c3_eval (fun r => r)) PV.c3_start).regs true).source =
      (PV.restore_module (fun r => r) true
        (([true, true] : List Bool).foldl
          (PV.processModule PV.c3_eval (fun r => r)) PV.c3_start).regs true).replica ∧
    (PV.restore_module (fun r => r) true
      (([true, true] : List Bool).foldl
        (PV.processModule PV.c3_eval (fun r => r)) PV.c3_start).regs true).source_x =
      (PV.restore_module (fun r => r) true
        (([true, true] : List Bool).foldl
          (PV.processModule PV.c3_eval (fun r => r)) PV.c3_start).regs true).replica_x ∧
    (PV.restore_module (fun r => r) true
      (([true, true] : List Bool).foldl
        (PV.processModule PV.c3_eval (fun r => r)) PV.c3_start).regs true).replica =
      (PV.c3_start.regs true).replica ∧
    (PV.restore_module (fun r => r) true
      (([true, true] : List Bool).foldl
        (PV.processModule PV.c3_eval (fun r => r)) PV.c3_start).regs true).replica_x =
      (PV.c3_start.regs true).replica_x) :=
  ⟨rfl, PV.fixed_point_reeval_restores_replica PV.c3_eval (fun r => r)
    PV.c3_start [true, true] true rfl true rfl⟩

namespace PV

/-- State of the concrete feedback design driven through the fixed-point
while loop of `Testbench::simulation` (pv_testbench.h lines 183-207): one
module M holding two `Wire<int>` w1 and w2 (both sensitize M), whose
`evaluate()` performs `w1 = w2 + 1; w2 = w1 + 1`. `queued` is M's
membership in the root's `triggered` run queue, `iterations` the loop's
`iteration_count`. -/
structure FPSys where
  w1 : WireState Int
  w2 : WireState Int
  w1_changed : Bool
  w2_changed : Bool
  queued : Bool
  iterations : Nat
deriving DecidableEq, Repr

/-- The feedback module's `evaluate()`: `w1 = w2 + 1; w2 = w1 + 1`, each
assignment running `common_assignment` on a wire sensitized to M, so a
triggering assignment re-inserts M into the run queue. -/
def fp_evaluate (s : FPSys) : FPSys :=
  let a1 := common_assignment true s.w1 false (s.w2.value + 1)
  let s1 := { s with w1 := a1.wire, w1_changed := a1.inChangedWires
                     queued := s.queued || a1.triggered }
  let a2 := common_assignment true s1.w2 false (s1.w1.value + 1)
  { s1 with w2 := a2.wire, w2_changed := a2.inChangedWires
            queued := s1.queued || a2.triggered }

/-- Outcome of running the fixed-point while loop with bounded fuel. -/
inductive FPResult where
  | drained (s : FPSys)
  | limitExceeded (code : Int)
  | running (s : FPSys)
deriving DecidableEq, Repr

/-- The while loop of `Testbench::simulation` (pv_testbench.h lines
183-207) on the feedback design: while the run queue is nonempty, test
`opt_iteration_limit > 0 && iteration_count++ == opt_iteration_limit`
(short-circuit: the counter only moves when the limit is positive; on
equality the loop sets exit code SIM_ERR_ITERATION_LIMIT = -3 and throws),
then snapshot the queue, clear it, and evaluate the snapshot's module.
`fuel` bounds how many loop tests we unfold. `fpNext` is one loop body:
count the iteration (only when the limit is positive, by the
short-circuit), snapshot and clear the queue, evaluate M. -/
def fpNext (limit : Int) (s : FPSys) : FPSys :=
  fp_evaluate { s with queued := false
                       iterations := if limit > 0 then s.iterations + 1
                                     else s.iterations }

def fpRun (limit : Int) : Nat → FPSys → FPResult
  | 0, s => .running s
  | Nat.succ n, s =>
    if s.queued = false then .drained s
    else if limit > 0 ∧ (s.iterations : Int) = limit then .limitExceeded (-3)
    else fpRun limit n (fpNext limit s)

/-- The feedback design right after the positive edge of the first clock:
w1 instanced with value 0, w2 with value 1, M enqueued by the kick-start
(`trigger_all_modules`), no iterations counted yet. -/
def fp_start : FPSys :=
  { w1 := wire_constructor (some 0) 0
    w2 := wire_constructor (some 1) 0
    w1_changed := false, w2_changed := false
    queued := true, iterations := 0 }

/-- Invariant of the feedback design under evaluation: both wires carry
concrete values with w2 = w1 + 1, and M is queued. -/
def fpInv (s : FPSys) : Prop :=
  s.queued = true ∧ s.w1.is_x = false ∧ s.w2.is_x = false ∧
    s.w2.value = s.w1.value + 1

theorem fp_evaluate_inv (s : FPSys) (h1 : s.w1.is_x = false)
    (h2 : s.w2.is_x = false) (h3 : s.w2.value = s.w1.value + 1) :
    fpInv (fp_evaluate s) := by
  unfold fp_evaluate common_assignment
  refine ⟨?_, by simp, by simp, by simp⟩
  simp only [if_neg Bool.false_ne_true]
  have hne : ¬ s.w2.value + 1 = s.w1.value := by omega
  simp [h1, hne]

theorem fpRun_zero_running (n : Nat) :
    ∀ s : FPSys, fpInv s → ∃ s₂, fpRun 0 n s = .running s₂ ∧ fpInv s₂ := by
  induction n with
  | zero => exact fun s h => ⟨s, rfl, h⟩
  | succ n ih =>
    intro s h
    obtain ⟨hq, h1, h2, h3⟩ := h
    rw [fpRun, if_neg (by simp [hq]), if_neg (by simp)]
    exact ih _ (fp_evaluate_inv _ h1 h2 h3)

end PV

/-- Counterexample to claim C5: with the iteration limit set to 0, the
feedback design's fixed-point loop never terminates with the
ITERATION_LIMIT exit code (-3) — the guard `opt_iteration_limit > 0`
disables the watchdog, so the while loop runs the queue forever. -/
theorem PV.iteration_limit_zero_never_exits :
    ¬ ∃ n : Nat, PV.fpRun 0 n PV.fp_start = PV.FPResult.limitExceeded (-3) := by
  rintro ⟨n, hn⟩
  obtain ⟨s₂, hrun, _⟩ := PV.fpRun_zero_running n PV.fp_start
    ⟨rfl, rfl, rfl, rfl⟩
  rw [hn] at hrun
  exact PV.FPResult.noConfusion hrun

namespace PV

theorem fp_evaluate_iterations (s : FPSys) :
    (fp_evaluate s).iterations = s.iterations := rfl

theorem fpNext_iterations (limit : Int) (s : FPSys) (hl : 0 < limit) :
    (fpNext limit s).iterations = s.iterations + 1 := by
  simp [fpNext, fp_evaluate_iterations, hl]

theorem fpRun_pos_exits (limit : Int) (hl : 0 < limit) :
    ∀ (g : Nat) (s : FPSys), fpInv s → (s.iterations : Int) + g = limit →
      fpRun limit (g + 1) s = .limitExceeded (-3) := by
  intro g
  induction g with
  | zero =>
    intro s h hg
    obtain ⟨hq, -, -, -⟩ := h
    rw [fpRun, if_neg (by simp [hq]), if_pos ⟨hl, by omega⟩]
  | succ g ih =>
    intro s h hg
    obtain ⟨hq, h1, h2, h3⟩ := h
    rw [fpRun, if_neg (by simp [hq]), if_neg (by rintro ⟨-, he⟩; omega)]
    have hinv : fpInv (fpNext limit s) := fp_evaluate_inv _ h1 h2 h3
    refine ih _ hinv ?_
    rw [fpNext_iterations limit s hl]
    push_cast
    omega

end PV

/-- Amended claim C5: a non-positive iteration limit (0 as well as the
documented -1) disables the watchdog, so the claim holds for positive
limits: for every iteration limit l > 0, the feedback design's fixed-point
loop terminates with the ITERATION_LIMIT exit code (-3) once the iteration
count reaches l. -/
theorem PV.iteration_limit_positive_exits (l : Int) (hl : 0 < l) :
    ∃ n : Nat, PV.fpRun l n PV.fp_start = PV.FPResult.limitExceeded (-3) :=
  ⟨l.toNat + 1, PV.fpRun_pos_exits l hl l.toNat PV.fp_start
    ⟨rfl, rfl, rfl, rfl⟩ (by simp [PV.fp_start]; omega)⟩

/-- Witness for the amended claim C5 at the concrete limit 1: the feedback
design terminates with exit code -3. -/
theorem PV.iteration_limit_positive_exits_witness :
    (0 : Int) < 1 ∧
    ∃ n : Nat, PV.fpRun 1 n PV.fp_start = PV.FPResult.limitExceeded (-3) :=
  ⟨by norm_num, PV.iteration_limit_positive_exits 1 (by norm_num)⟩

namespace PV

/-- Exit-code and loop-control state of `Testbench::simulation`
(pv_testbench.h): `exit_simulation`, `exit_code`, `exit_string` and the
clock counter. `simulation()` starts with `exit_simulation = false`,
`exit_code = SIM_NORMAL_EXIT` (0) and, when not continuing a prior
sequence, `clock_num = 0`. -/
structure SimState where
  exit_simulation : Bool
  exit_code : Int
  exit_string : String
  clock_num : Nat
deriving DecidableEq, Repr

/-- Initial control state at the top of `Testbench::simulation`. -/
def sim_init : SimState :=
  { exit_simulation := false, exit_code := 0, exit_string := "", clock_num := 0 }

/-- One iteration of the do-while clock loop of `Testbench::simulation`
(pv_testbench.h lines 133-242), keeping the control-flow that decides the
exit code. `evalOutcome clock` summarizes the try block's fixed-point
propagation for that clock: `.ok` when it quiesced, `.error e` when a
module's `evaluate()` threw an exception with message e (and no watchdog
fired first). The catch block (lines 208-213) records
"Simulation error: " + e in `exit_string` and sets `exit_simulation`,
leaving `exit_code` as it was; the cycle-limit check (lines 235-241) then
runs. -/
def clockBody (evalOutcome : Nat → Except String Unit)
    (opt_cycle_limit : Int) (s : SimState) : SimState :=
  let s1 := { s with clock_num := s.clock_num + 1 }
  let s2 := match evalOutcome s1.clock_num with
    | .ok _ => s1
    | .error e =>
      { s1 with exit_string := "Simulation error: " ++ e
                exit_simulation := true }
  if opt_cycle_limit > 0 ∧ (s2.clock_num : Int) = opt_cycle_limit then
    { s2 with exit_code := -1, exit_simulation := true }
  else s2

/-- The do-while loop `... while (!exit_simulation); return exit_code;`,
unfolded with bounded fuel; `some` is a completed run carrying the final
control state (whose `exit_code` the function returns). -/
def simulationLoop (evalOutcome : Nat → Except String Unit)
    (opt_cycle_limit : Int) : Nat → SimState → Option SimState
  | 0, _ => none
  | Nat.succ n, s =>
    let s1 := clockBody evalOutcome opt_cycle_limit s
    if s1.exit_simulation then some s1
    else simulationLoop evalOutcome opt_cycle_limit n s1

end PV

/-- Counterexample to claim C6: a module whose `evaluate()` throws "boom"
during clock 1, with no watchdog limit configured (cycle limit -1, the
default), terminates the simulation at clock 1 with the message recorded —
but `simulation()` returns exit code 0, the normal exit code, because the
catch block never changes `exit_code`. -/
theorem PV.eval_throw_returns_zero_cex :
    PV.simulationLoop (fun _ => Except.error "boom") (-1) 1 PV.sim_init =
      some { exit_simulation := true, exit_code := 0
             exit_string := "Simulation error: " ++ "boom", clock_num := 1 } := by
  rfl

/-- Amended claim C6: when a module's `evaluate()` throws during the
fixed-point loop (no watchdog having fired first), the scheduler catches the
exception, records "Simulation error: " + message in the error string
retrievable after `simulation()` returns, and terminates the simulation at
the current clock — but it returns the exit code unchanged,
SIM_NORMAL_EXIT (0) when no watchdog had set one, so the exit code does not
signal the runtime error. -/
theorem PV.eval_throw_records_and_terminates (msg : String) (fuel : Nat) :
    PV.simulationLoop (fun _ => Except.error msg) (-1) (fuel + 1) PV.sim_init =
      some { exit_simulation := true, exit_code := 0
             exit_string := "Simulation error: " ++ msg, clock_num := 1 } := by
  rw [PV.simulationLoop]
  rfl

namespace PV

/-- State of `vcd::writer` (pv_vcd.h): whether the output file opened at
construction, the `is_emitting_change` gate, and the stream contents as the
list of emitted chunks. When `std::filebuf::open` fails the constructor
sets `file_is_open = false` (lines 84-93). -/
structure VcdWriter where
  file_is_open : Bool
  is_emitting_change : Bool
  out : List String
deriving DecidableEq, Repr

/-- `vcd::writer::check_state` (pv_vcd.h lines 341-347): when the file is
not open it throws `std::ios_base::failure("VCD writer: bad file stream.")`,
modelled as `Except.error`. -/
def check_state (w : VcdWriter) : Except String Unit :=
  if w.file_is_open then Except.ok () else Except.error "VCD writer: bad file stream."

/-- `vcd::writer::is_open` (pv_vcd.h line 135). -/
def VcdWriter.is_open (w : VcdWriter) : Bool := w.file_is_open

/-- `vcd::writer::emit_header` (pv_vcd.h lines 163-169): `check_state()`
then the `$date`/`$version`/`$timescale` lines; `date` and `time_str` stand
for the wall-clock string and the configured timescale text. -/
def emit_header (date time_str : String) (w : VcdWriter) :
    Except String VcdWriter := do
  let _ ← check_state w
  Except.ok { w with out := w.out ++
    ["$date " ++ date ++ "$end\n",
     "$version PseudoVerilog vcd::writer 1.0\n$end\n",
     "$timescale " ++ time_str ++ "\n$end\n"] }

/-- `vcd::writer::emit_dumpoff` (pv_vcd.h line 202): `check_state()` then
the `$dumpoff` line. -/
def emit_dumpoff (w : VcdWriter) : Except String VcdWriter := do
  let _ ← check_state w
  Except.ok { w with out := w.out ++ ["$dumpoff"] }

/-- `vcd::writer::emit_change` (pv_vcd.h lines 226-228): `check_state()`,
then the value line only while `is_emitting_change` holds. -/
def emit_change (id : String) (width : Int) (value : String) (w : VcdWriter) :
    Except String VcdWriter := do
  let _ ← check_state w
  if w.is_emitting_change then
    Except.ok { w with out := w.out ++
      [value ++ (if width > 1 then " " else "") ++ id] }
  else
    Except.ok w

/-- The scheduler's guard around every writer use
(`if (writer != NULL && writer->is_open()) ...` in pv_testbench.h, e.g.
lines 113, 147, 168, 216, 245): with no writer or an unopened one the
simulation skips the VCD work and proceeds untraced. -/
def guarded_vcd_use (w : Option VcdWriter)
    (action : VcdWriter → Except String VcdWriter) : Option VcdWriter :=
  match w with
  | none => none
  | some wr =>
    if wr.is_open then
      match action wr with
      | .ok wr2 => some wr2
      | .error _ => some wr
    else some wr

/-- An unopened writer, as the constructor leaves it on an open failure:
`file_is_open = false`, `is_emitting_change = true`, nothing emitted. -/
def closed_writer : VcdWriter :=
  { file_is_open := false, is_emitting_change := true, out := [] }

end PV

/-- Counterexample to claim C8: an operation on a writer whose file failed
to open is not a no-op — `emit_dumpoff` (like every emit primitive) runs
`check_state`, which throws `ios_base::failure("VCD writer: bad file
stream.")` instead of returning normally. -/
theorem PV.vcd_closed_writer_throws_cex :
    PV.emit_dumpoff PV.closed_writer =
      Except.error "VCD writer: bad file stream." ∧
    PV.emit_dumpoff PV.closed_writer ≠ Except.ok PV.closed_writer := by
  refine ⟨rfl, ?_⟩
  intro hcontra
  exact Except.noConfusion hcontra

/-- Amended claim C8: if the writer's file fails to open at construction,
every subsequent emit operation on the writer throws
`ios_base::failure("VCD writer: bad file stream.")` and writes nothing —
rather than silently doing nothing — and the simulation still proceeds
without tracing because `is_open()` is false, so the scheduler's
`writer != NULL && writer->is_open()` guard skips every writer use. -/
theorem PV.vcd_closed_writer_error_and_guard (w : PV.VcdWriter)
    (date time_str id value : String) (width : Int)
    (h : w.file_is_open = false) :
    PV.emit_header date time_str w = Except.error "VCD writer: bad file stream." ∧
    PV.emit_dumpoff w = Except.error "VCD writer: bad file stream." ∧
    PV.emit_change id width value w = Except.error "VCD writer: bad file stream." ∧
    w.is_open = false ∧
    (∀ action, PV.guarded_vcd_use (some w) action = some w) := by
  have hcs : PV.check_state w = Except.error "VCD writer: bad file stream." := by
    rw [PV.check_state, h]
    rfl
  refine ⟨?_, ?_, ?_, h, ?_⟩
  · rw [PV.emit_header, hcs]
    rfl
  · rw [PV.emit_dumpoff, hcs]
    rfl
  · rw [PV.emit_change, hcs]
    rfl
  · intro action
    rw [PV.guarded_vcd_use]
    simp [PV.VcdWriter.is_open, h]

/-- Witness for the amended claim C8 at the concrete unopened writer left by
a failed construction. -/
theorem PV.vcd_closed_writer_error_and_guard_witness :
    PV.closed_writer.file_is_open = false ∧
    (PV.emit_header "d" "1 s" PV.closed_writer =
      Except.error "VCD writer: bad file stream." ∧
    PV.emit_dumpoff PV.closed_writer =
      Except.error "VCD writer: bad file stream." ∧
    PV.emit_change "@0" 8 "b00000000" PV.closed_writer =
      Except.error "VCD writer: bad file stream." ∧
    PV.closed_writer.is_open = false ∧
    (∀ action, PV.guarded_vcd_use (some PV.closed_writer) action =
      some PV.closed_writer)) :=
  ⟨rfl, PV.vcd_closed_writer_error_and_guard PV.closed_writer
    "d" "1 s" "@0" "b00000000" 8 rfl⟩

/-- Claim C1: for an assignment of a concrete value v, the wire is added to
the root's changed-wires set iff the start-of-clock X flag is true or v
differs from the start-of-clock value (and is removed otherwise); the
sensitized module, when one exists, is triggered exactly when the wire is
currently X or v differs from the current value; afterwards the current X
flag is false and the current value is v. For an assignment of X, the wire
is removed from changed-wires when the start-of-clock X flag is true and
added when it is false, the sensitized module is triggered only if the wire
was not already X, and afterwards the current X flag is true. -/
theorem PV.wire_assignment_changed_trigger_spec {T : Type} [DecidableEq T]
    (hasSens : Bool) (w : PV.WireState T) (v : T) :
    ((PV.common_assignment hasSens w false v).inChangedWires = true ↔
      (w.was_x = true ∨ v ≠ w.old_value)) ∧
    (hasSens = true →
      ((PV.common_assignment hasSens w false v).triggered = true ↔
        (w.is_x = true ∨ v ≠ w.value))) ∧
    (PV.common_assignment hasSens w false v).wire.is_x = false ∧
    (PV.common_assignment hasSens w false v).wire.value = v ∧
    ((PV.common_assignment hasSens w true v).inChangedWires = false ↔
      w.was_x = true) ∧
    ((PV.common_assignment hasSens w true v).triggered = true →
      w.is_x = false) ∧
    (PV.common_assignment hasSens w true v).wire.is_x = true := by
  unfold PV.common_assignment
  cases hwx : w.was_x <;> cases hix : w.is_x <;> cases hasSens <;>
    by_cases hov : v = w.old_value <;> by_cases hv : v = w.value <;>
      simp_all

/-- Claim C10: assigning X to a wire leaves the stored concrete value field
(and the start-of-clock and instance value fields and the start-of-clock X
flag) unchanged, and reading the wire through its value conversion still
returns the last concrete value while the wire is in the X state. -/
theorem PV.wire_assign_x_preserves_value {T : Type} [DecidableEq T]
    (hasSens : Bool) (w : PV.WireState T) :
    (PV.common_assignment hasSens w true w.value).wire.value = w.value ∧
    (PV.common_assignment hasSens w true w.value).wire.old_value = w.old_value ∧
    (PV.common_assignment hasSens w true w.value).wire.init_value = w.init_value ∧
    (PV.common_assignment hasSens w true w.value).wire.was_x = w.was_x ∧
    (PV.common_assignment hasSens w true w.value).wire.is_x = true ∧
    PV.wire_read (PV.common_assignment hasSens w true w.value).wire = w.value := by
  unfold PV.common_assignment PV.wire_read
  simp
